import Mathlib

set_option autoImplicit false

/-!
Shallow embedding of `scripts/hookd/hookd.py`, a PEP 517 build-hook daemon
speaking a line-oriented protocol over stdin/stdout.  Python machine details
(object identity, module imports, attribute lookup, the filesystem and the
working directory) are modelled explicitly; real wall-clock timing that only
feeds DEBUG lines is abstracted behind an oracle parameter.
-/

namespace Hookd

/-- `class Hook(enum.StrEnum)` from hookd.py: the five PEP 517 hook kinds,
in definition order (the order `Hook._member_names_` reports). -/
inductive Hook where
  | build_wheel
  | build_sdist
  | prepare_metadata_for_build_wheel
  | get_requires_for_build_wheel
  | get_requires_for_build_sdist
deriving DecidableEq, Repr

/-- The string value of each `Hook` member (`enum.auto()` on a `StrEnum`
makes the value equal to the member name). -/
def Hook.toName : Hook → String
  | .build_wheel => "build_wheel"
  | .build_sdist => "build_sdist"
  | .prepare_metadata_for_build_wheel => "prepare_metadata_for_build_wheel"
  | .get_requires_for_build_wheel => "get_requires_for_build_wheel"
  | .get_requires_for_build_sdist => "get_requires_for_build_sdist"

/-- `Hook._member_names_`, in class-body order. -/
def Hook.memberNames : List String :=
  ["build_wheel", "build_sdist", "prepare_metadata_for_build_wheel",
   "get_requires_for_build_wheel", "get_requires_for_build_sdist"]

/-- All five hooks, in definition order. -/
def Hook.all : List Hook :=
  [.build_wheel, .build_sdist, .prepare_metadata_for_build_wheel,
   .get_requires_for_build_wheel, .get_requires_for_build_sdist]

/-- `class HookArgument(enum.StrEnum)` from hookd.py, in definition order. -/
inductive HookArgument where
  | wheel_directory
  | config_settings
  | metadata_directory
  | sdist_directory
deriving DecidableEq, Repr

/-- The string value / member name of each `HookArgument`. -/
def HookArgument.toName : HookArgument → String
  | .wheel_directory => "wheel_directory"
  | .config_settings => "config_settings"
  | .metadata_directory => "metadata_directory"
  | .sdist_directory => "sdist_directory"

/-- `class Action(enum.StrEnum)` from hookd.py. -/
inductive Action where
  | run
  | shutdown
deriving DecidableEq, Repr

/-- `Action._member_names_`. -/
def Action.memberNames : List String := ["run", "shutdown"]

/-! JSON documents as produced by `json.loads`.  Python floats never feed a
claim, so a numeric literal keeps its source lexeme instead of a float.
The three types are mutual (rather than nesting `List`) so that recursion
over documents stays structural and computable. -/
mutual
/-- A JSON document. -/
inductive Json where
  | null
  | bool (b : Bool)
  | num (lexeme : String)
  | str (s : String)
  | arr (elems : JsonList)
  | obj (members : JsonMembers)
/-- A list of JSON documents (array elements). -/
inductive JsonList where
  | nil
  | cons (hd : Json) (tl : JsonList)
/-- The key/value members of a JSON object, in order of appearance. -/
inductive JsonMembers where
  | nil
  | cons (key : String) (val : Json) (tl : JsonMembers)
end

/-- Build a `JsonList` from a `List`. -/
def JsonList.ofList : List Json → JsonList
  | [] => .nil
  | j :: js => .cons j (JsonList.ofList js)

/-- Build `JsonMembers` from an association `List`. -/
def JsonMembers.ofList : List (String × Json) → JsonMembers
  | [] => .nil
  | kv :: kvs => .cons kv.1 kv.2 (JsonMembers.ofList kvs)

/-- `pathlib.Path` as far as hookd observes it: the textual form.  The only
pathlib normalisation a claim touches is that `Path("")` is the path `"."`;
other textual normalisations are irrelevant here and not modelled. -/
structure Path where
  text : String
deriving DecidableEq, Repr

/-- `Path(s)` on a raw input string: the empty string normalises to `"."`. -/
def Path.ofString (s : String) : Path :=
  if s = "" then ⟨"."⟩ else ⟨s⟩

/-- The recoverable exception classes (subclasses of `HookdError`), each with
the instance attributes its `__init__` stores.  `unsupportedHook` stores the
backend object, modelled by the list of names in the backend's `__dict__`,
and the hook name. -/
inductive HookdErr where
  | missingBackendModule (name : String)
  | missingBackendAttribute (module : String) (attr : String)
  | malformedBackendName (name : String)
  | invalidHookName (name : String)
  | invalidAction (name : String)
  | unsupportedHook (backendDict : List String) (hook : String)
  | malformedHookArgument (raw : String) (argument : HookArgument)
  | hookRuntimeError (excText : String)
deriving DecidableEq, Repr

/-- `type(exc).__name__` for each recoverable error class. -/
def HookdErr.typeName : HookdErr → String
  | .missingBackendModule _ => "MissingBackendModule"
  | .missingBackendAttribute _ _ => "MissingBackendAttribute"
  | .malformedBackendName _ => "MalformedBackendName"
  | .invalidHookName _ => "InvalidHookName"
  | .invalidAction _ => "InvalidAction"
  | .unsupportedHook _ _ => "UnsupportedHook"
  | .malformedHookArgument _ _ => "MalformedHookArgument"
  | .hookRuntimeError _ => "HookRuntimeError"

/-- A raised Python exception that is not a `HookdError`:
its `type(exc).__name__` and its `str(exc)` text. -/
structure PyExc where
  kind : String
  text : String
deriving DecidableEq, Repr

/-- Python `repr` of a string, for the identifier-like names and short texts
hookd interpolates with `!r`; escaping of special characters inside the
string is not modelled (no claim exercises it). -/
def pyRepr (s : String) : String := "\u0027" ++ s ++ "\u0027"

/-- `str.split(sep)` for a one-character separator: split at every
occurrence, keeping empty pieces (kernel-reducible). -/
def splitCharAux (sep : Char) : List Char → List Char → List String
  | [], acc => [String.mk acc.reverse]
  | c :: cs, acc =>
    if c = sep then String.mk acc.reverse :: splitCharAux sep cs []
    else splitCharAux sep cs (c :: acc)

/-- `s.split(sep)` for a one-character separator. -/
def splitChar (sep : Char) (s : String) : List String :=
  splitCharAux sep s.toList []

/-- `sep.join(parts)` (kernel-reducible). -/
def joinWith (sep : String) : List String → String
  | [] => ""
  | [x] => x
  | x :: y :: xs => x ++ sep ++ joinWith sep (y :: xs)

/-- The HookArguments dict literal of hookd.py, an association list in
source order: the schema of each hook. -/
def HookArguments : List (Hook × List HookArgument) :=
  [ (.build_sdist, [.sdist_directory, .config_settings]),
    (.build_wheel, [.wheel_directory, .config_settings, .metadata_directory]),
    (.prepare_metadata_for_build_wheel, [.metadata_directory, .config_settings]),
    (.get_requires_for_build_sdist, [.config_settings]),
    (.get_requires_for_build_wheel, [.config_settings]) ]

/-- Dict lookup `HookArguments[hook]` (with `hook in HookArguments` being
`(lookupHookArguments hook).isSome`). -/
def lookupHookArguments (h : Hook) : Option (List HookArgument) :=
  (HookArguments.lookup h)


/-! ### A model of `json.loads` (CPython defaults: strict strings, NaN and
Infinity allowed, any top-level JSON value).  Recursion is fuelled by a `Nat`
so every definition reduces inside the kernel; `jsonLoads` supplies enough
fuel for any input.  Duplicate object keys are kept in order of appearance
(CPython keeps the last; no claim distinguishes the two). -/

/-- JSON whitespace. -/
def isJsonWs (c : Char) : Bool :=
  c = ' ' || c = Char.ofNat 9 || c = Char.ofNat 10 || c = Char.ofNat 13

/-- Drop leading JSON whitespace. -/
def skipWs : List Char → List Char
  | [] => []
  | c :: cs => if isJsonWs c then skipWs cs else c :: cs

/-- The opening brace character. -/
def lbrace : Char := Char.ofNat 123

/-- The closing brace character. -/
def rbrace : Char := Char.ofNat 125

/-- Value of a hexadecimal digit. -/
def hexDigitVal (c : Char) : Option Nat :=
  if c.isDigit then some (c.toNat - 48)
  else if 'a' ≤ c && c ≤ 'f' then some (c.toNat - 97 + 10)
  else if 'A' ≤ c && c ≤ 'F' then some (c.toNat - 65 + 10)
  else none

/-- Parse the body of a JSON string after the opening quote, accumulating
decoded characters; returns the string and the input after the closing
quote.  Strict mode: unescaped control characters are rejected. -/
def parseStringBody : Nat → List Char → List Char → Option (String × List Char)
  | 0, _, _ => none
  | _ + 1, [], _ => none
  | fuel + 1, c :: cs, acc =>
    if c = '"' then some (String.mk acc.reverse, cs)
    else if c = '\\' then
      match cs with
      | [] => none
      | e :: cs2 =>
        if e = '"' then parseStringBody fuel cs2 ('"' :: acc)
        else if e = '\\' then parseStringBody fuel cs2 ('\\' :: acc)
        else if e = '/' then parseStringBody fuel cs2 ('/' :: acc)
        else if e = 'b' then parseStringBody fuel cs2 (Char.ofNat 8 :: acc)
        else if e = 'f' then parseStringBody fuel cs2 (Char.ofNat 12 :: acc)
        else if e = 'n' then parseStringBody fuel cs2 (Char.ofNat 10 :: acc)
        else if e = 'r' then parseStringBody fuel cs2 (Char.ofNat 13 :: acc)
        else if e = 't' then parseStringBody fuel cs2 (Char.ofNat 9 :: acc)
        else if e = 'u' then
          match cs2 with
          | h1 :: h2 :: h3 :: h4 :: cs3 =>
            match hexDigitVal h1, hexDigitVal h2, hexDigitVal h3, hexDigitVal h4 with
            | some a, some b, some c3, some d =>
              parseStringBody fuel cs3
                (Char.ofNat (((a * 16 + b) * 16 + c3) * 16 + d) :: acc)
            | _, _, _, _ => none
          | _ => none
        else none
    else if c.toNat < 32 then none
    else parseStringBody fuel cs (c :: acc)

/-- Longest prefix of decimal digits, and the rest. -/
def spanDigits : List Char → List Char × List Char
  | [] => ([], [])
  | c :: cs =>
    if c.isDigit then
      let (d, r) := spanDigits cs
      (c :: d, r)
    else ([], c :: cs)

/-- Optional fraction part `.digits`; `none` means a malformed number. -/
def parseFracPart : List Char → Option (List Char × List Char)
  | [] => some ([], [])
  | c :: cs1 =>
    if c = '.' then
      match spanDigits cs1 with
      | ([], _) => none
      | (d, r) => some (c :: d, r)
    else some ([], c :: cs1)

/-- Optional exponent part `e[+-]digits`; `none` means malformed. -/
def parseExpPart : List Char → Option (List Char × List Char)
  | [] => some ([], [])
  | c :: cs1 =>
    if c = 'e' || c = 'E' then
      let (sgn, cs2) :=
        match cs1 with
        | s :: cs2 => if s = '+' || s = '-' then ([s], cs2) else (([] : List Char), s :: cs2)
        | [] => ([], [])
      match spanDigits cs2 with
      | ([], _) => none
      | (d, r) => some (c :: (sgn ++ d), r)
    else some ([], c :: cs1)

/-- Parse a JSON number at the head of the input, returning its lexeme. -/
def parseNumber (cs : List Char) : Option (String × List Char) :=
  let (sign, cs1) :=
    match cs with
    | c :: t => if c = '-' then ([c], t) else (([] : List Char), c :: t)
    | [] => ([], [])
  match cs1 with
  | [] => none
  | c :: cs2 =>
    let intRest : Option (List Char × List Char) :=
      if c = '0' then some ([c], cs2)
      else if c.isDigit then
        let (d, r) := spanDigits cs2
        some (c :: d, r)
      else none
    match intRest with
    | none => none
    | some (ip, r1) =>
      match parseFracPart r1 with
      | none => none
      | some (fp, r2) =>
        match parseExpPart r2 with
        | none => none
        | some (ep, r3) => some (String.mk (sign ++ ip ++ fp ++ ep), r3)

/-- Does the second list start with the first? -/
def startsWithChars : List Char → List Char → Bool
  | [], _ => true
  | _ :: _, [] => false
  | p :: ps, c :: cs => p = c && startsWithChars ps cs

/-- Parser modes: a value, the members of an object (after the opening
brace), or the elements of an array (after the opening bracket). -/
inductive PMode where
  | value
  | objMembers (first : Bool) (acc : List (String × Json))
  | arrElems (first : Bool) (acc : List Json)

/-- One fuelled JSON parsing routine covering values, object member lists
and array element lists. -/
def parseStep : Nat → PMode → List Char → Option (Json × List Char)
  | 0, _, _ => none
  | fuel + 1, .value, cs0 =>
    let cs := skipWs cs0
    match cs with
    | [] => none
    | c :: rest =>
      if c = '"' then
        match parseStringBody (rest.length + 1) rest [] with
        | some (s, r) => some (.str s, r)
        | none => none
      else if c = lbrace then parseStep fuel (.objMembers true []) (skipWs rest)
      else if c = '[' then parseStep fuel (.arrElems true []) (skipWs rest)
      else if startsWithChars "true".toList cs then some (.bool true, cs.drop 4)
      else if startsWithChars "false".toList cs then some (.bool false, cs.drop 5)
      else if startsWithChars "null".toList cs then some (.null, cs.drop 4)
      else if startsWithChars "NaN".toList cs then some (.num "NaN", cs.drop 3)
      else if startsWithChars "Infinity".toList cs then some (.num "Infinity", cs.drop 8)
      else if startsWithChars "-Infinity".toList cs then some (.num "-Infinity", cs.drop 9)
      else
        match parseNumber cs with
        | some (lex, r) => some (.num lex, r)
        | none => none
  | fuel + 1, .objMembers first acc, cs =>
    match cs with
    | [] => none
    | c :: rest =>
      if first && c = rbrace then some (.obj (JsonMembers.ofList acc), rest)
      else if c = '"' then
        match parseStringBody (rest.length + 1) rest [] with
        | none => none
        | some (key, r1) =>
          match skipWs r1 with
          | ':' :: r2 =>
            match parseStep fuel .value r2 with
            | none => none
            | some (v, r3) =>
              match skipWs r3 with
              | [] => none
              | d :: r4 =>
                if d = ',' then
                  parseStep fuel (.objMembers false (acc ++ [(key, v)])) (skipWs r4)
                else if d = rbrace then some (.obj (JsonMembers.ofList (acc ++ [(key, v)])), r4)
                else none
          | _ => none
      else none
  | fuel + 1, .arrElems first acc, cs =>
    match cs with
    | [] => none
    | c :: rest =>
      if first && c = ']' then some (.arr (JsonList.ofList acc), rest)
      else
        match parseStep fuel .value (c :: rest) with
        | none => none
        | some (v, r) =>
          match skipWs r with
          | [] => none
          | d :: r2 =>
            if d = ',' then parseStep fuel (.arrElems false (acc ++ [v])) (skipWs r2)
            else if d = ']' then some (.arr (JsonList.ofList (acc ++ [v])), r2)
            else none

/-- `json.loads(s)`: parse one JSON document with nothing but whitespace
after it.  `none` models `json.decoder.JSONDecodeError`. -/
def jsonLoads (s : String) : Option Json :=
  match parseStep (s.length + 1) .value s.toList with
  | some (j, rest) => if skipWs rest = [] then some j else none
  | none => none


/-! ### The nested string mapping of the spec (for comparison with what the
decoder accepts).  `Modelled from the spec:` "optional arbitrarily-nested
mapping from string to (string | same kind of mapping)". -/

/-- Values allowed inside the nested mapping of the spec: a string, or
another such mapping. -/
inductive NestedStringMapVal : Json → Prop where
  | str (s : String) : NestedStringMapVal (.str s)
  | objNil : NestedStringMapVal (.obj .nil)
  | objCons (k : String) (v : Json) (tl : JsonMembers) :
      NestedStringMapVal v → NestedStringMapVal (.obj tl) →
      NestedStringMapVal (.obj (.cons k v tl))

/-- `Modelled from the spec:` a config_settings document per the spec is a
mapping from string to (string | same kind of mapping). -/
def SpecNestedStringMapping (j : Json) : Prop :=
  (∃ kvs, j = Json.obj kvs) ∧ NestedStringMapVal j

/-! ### Line readers and field parsers. -/

/-- `line.rstrip("\n")`. -/
def rstripNl (s : String) : String :=
  String.mk (s.toList.reverse.dropWhile (fun c => c = Char.ofNat 10)).reverse

/-- `buffer.readline()` on a stream modelled as a list of pending lines
(already without their terminating newline); at end of stream, `readline`
returns the empty string. -/
def readLine : List String → String × List String
  | [] => ("", [])
  | l :: ls => (l, ls)

/-- `Action.from_str` / `Action(action)`: StrEnum lookup by value. -/
def Action.from_str (action : String) : Except HookdErr Action :=
  if action = "run" then .ok .run
  else if action = "shutdown" then .ok .shutdown
  else .error (.invalidAction action)

/-- `Hook.from_str` / `Hook(name)`: StrEnum lookup by value. -/
def Hook.from_str (name : String) : Except HookdErr Hook :=
  if name = "build_wheel" then .ok .build_wheel
  else if name = "build_sdist" then .ok .build_sdist
  else if name = "prepare_metadata_for_build_wheel" then .ok .prepare_metadata_for_build_wheel
  else if name = "get_requires_for_build_wheel" then .ok .get_requires_for_build_wheel
  else if name = "get_requires_for_build_sdist" then .ok .get_requires_for_build_sdist
  else .error (.invalidHookName name)

/-- `parse_action`, applied to the line just read. -/
def parse_action (line : String) : Except HookdErr Action :=
  Action.from_str (rstripNl line)

/-- `parse_hook_name`, applied to the line just read. -/
def parse_hook_name (line : String) : Except HookdErr Hook :=
  Hook.from_str (rstripNl line)

/-- `parse_path`: `Path(buffer.readline().rstrip("\n"))`; no validation of
any kind, every line (the empty one included) becomes a path. -/
def parse_path (line : String) : Path :=
  Path.ofString (rstripNl line)

/-- `parse_optional_path`: the empty line is `None`, any other line becomes
a path. -/
def parse_optional_path (line : String) : Option Path :=
  let data := rstripNl line
  if data = "" then none else some ⟨data⟩

/-- `parse_config_settings`: the empty line is `None`; otherwise
`json.loads`, with `JSONDecodeError` turned into `MalformedHookArgument`
carrying the raw line and `HookArgument.config_settings`. -/
def parse_config_settings (line : String) : Except HookdErr (Option Json) :=
  let data := rstripNl line
  if data = "" then .ok none
  else
    match jsonLoads data with
    | some j => .ok (some j)
    | none => .error (.malformedHookArgument data .config_settings)

/-! ### Backend specification parsing and resolution.

Python-machine pieces are explicit: `import_module` stands for
the `importlib.import_module` routine (objects are numeric identities, so
reference equality is equality of numbers; the deterministic ValueError on
an empty module name is modelled in the wrapper, the rest by
`PyEnv.importMod`), `PyEnv.getAttr` is `getattr`, and `PyEnv.objDict`
lists the names in an object's `__dict__`. -/

/-! ### Parsed argument values and the per-argument parser dispatch. -/

/-- A decoded hook argument value. -/
inductive ArgValue where
  | path (p : Path)
  | optPath (p : Option Path)
  | config (j : Option Json)

/-- The failure channel of one hook cycle: a recoverable `HookdError`,
a `FatalError` (with its message text), some other uncaught Python
exception (fatal, e.g. the ValueError importlib raises on an empty module
name), or a termination signal. -/
inductive Failure where
  | hookd (e : HookdErr)
  | fatal (msg : String)
  | pyExc (e : PyExc)
  | signal (kind : String)

/-- The result of calling a hook: a normal return (already via `str`), a
raised exception, or a termination signal (`SystemExit` /
`KeyboardInterrupt`, which `raised` excludes). -/
inductive HookCallResult where
  | ok (text : String)
  | raised (e : PyExc)
  | signal (kind : String)

/-- What `importlib.import_module` does for one name: return a module,
raise `ImportError` (or its subclass `ModuleNotFoundError`), or raise a
different exception — which `except ImportError` clauses do not catch. -/
inductive ImportOutcome where
  | ok (handle : Nat)
  | importError
  | raised (e : PyExc)

/-- The Python runtime as hookd observes it.  `parseElapsed`, `runElapsed`
and `traceLines` are oracles for the wall-clock texts and the traceback
lines that feed only DEBUG/FATAL output (real time is not representable). -/
structure PyEnv where
  importMod : String → ImportOutcome
  getAttr : Nat → String → Option Nat
  objDict : Nat → List String
  callHook : Nat → List ArgValue → HookCallResult
  parseElapsed : String
  runElapsed : String
  traceLines : List String

/-- `importlib.import_module(name)`: CPython deterministically raises
`ValueError("Empty module name")` for the empty name (its sanity check
runs before any finder); other names behave as the environment says. -/
def import_module (env : PyEnv) (name : String) : ImportOutcome :=
  if name = "" then .raised ⟨"ValueError", "Empty module name"⟩
  else env.importMod name

/-- `module_name.rsplit(".", 1)` when a dot is present. -/
def rsplitDot (s : String) : String × String :=
  let parts := splitChar '.' s
  (joinWith "." parts.dropLast, parts.getLastD "")

/-- The spec-string validation at the top of `_parse_build_backend`
(lines 187–199): split on `":"`; one part keeps no attribute, two parts
require a non-empty attribute, anything else is malformed. -/
def backendNameParts (raw : String) : Except HookdErr (String × Option String) :=
  match splitChar ':' raw with
  | [m] => .ok (m, none)
  | [m, a] => if a = "" then .error (.malformedBackendName raw) else .ok (m, some a)
  | _ => .error (.malformedBackendName raw)

/-- `_parse_build_backend` without its `@cache` decorator: validate the
spec string, import the module (falling back to attribute-of-parent when
the dotted import fails), then fetch the optional attribute.  Only
`ImportError` is caught around the two imports: any other exception that
the machinery raises (such as ValueError for an empty module name)
propagates out uncaught, as `Failure.pyExc`. -/
def _parse_build_backend (env : PyEnv) (raw : String) : Except Failure Nat :=
  match backendNameParts raw with
  | .error e => .error (.hookd e)
  | .ok (module_name, attrPart) =>
    let step1 : Except Failure (Nat × Option Nat) :=
      match import_module env module_name with
      | .raised e => .error (.pyExc e)
      | .ok m => .ok (m, none)
      | .importError =>
        if !(module_name.toList.contains '.') then
          .error (.hookd (.missingBackendModule module_name))
        else
          let pc := rsplitDot module_name
          match import_module env pc.1 with
          | .raised e => .error (.pyExc e)
          | .importError => .error (.hookd (.missingBackendModule module_name))
          | .ok pm =>
            match env.getAttr pm pc.2 with
            | none => .error (.hookd (.missingBackendAttribute module_name pc.2))
            | some b => .ok (pm, some b)
    match step1 with
    | .error e => .error e
    | .ok (module, backend0) =>
      match attrPart with
      | some attr =>
        match env.getAttr module attr with
        | none => .error (.hookd (.missingBackendAttribute module_name raw))
        | some b => .ok b
      | none =>
        match backend0 with
        | some b => .ok b
        | none => .ok module

/-- The `functools.cache` memo table of `_parse_build_backend`, keyed by
the exact spec string; only successful returns are cached. -/
abbrev BackendCache := List (String × Nat)

/-- `@cache`-wrapped `_parse_build_backend`: a hit returns the stored
handle, a miss computes and (on success) stores. -/
def cachedParseBuildBackend (env : PyEnv) (c : BackendCache) (raw : String) :
    Except Failure Nat × BackendCache :=
  match c.lookup raw with
  | some h => (.ok h, c)
  | none =>
    match _parse_build_backend env raw with
    | .ok h => (.ok h, (raw, h) :: c)
    | .error e => (.error e, c)

/-- The fixed legacy default backend specification. -/
def legacyBackend : String := "setuptools.build_meta:__legacy__"

/-- `parse_build_backend`: read a line, default the empty line to the
legacy backend, resolve through the cache; returns the handle and the spec
string actually used. -/
def parse_build_backend (env : PyEnv) (c : BackendCache) (line : String) :
    Except Failure (Nat × String) × BackendCache :=
  let raw0 := rstripNl line
  let raw := if raw0 = "" then legacyBackend else raw0
  match cachedParseBuildBackend env c raw with
  | (.ok h, c2) => (.ok (h, raw), c2)
  | (.error e, c2) => (.error e, c2)

/-- `parse_hook_argument`: the if-chain over the four argument kinds, with
the `FatalError("No parser for hook argument kind ...")` fallthrough. -/
def parse_hook_argument (hook_arg : HookArgument) (line : String) : Except Failure ArgValue :=
  if hook_arg = .wheel_directory then .ok (.path (parse_path line))
  else if hook_arg = .metadata_directory then .ok (.optPath (parse_optional_path line))
  else if hook_arg = .sdist_directory then .ok (.path (parse_path line))
  else if hook_arg = .config_settings then
    match parse_config_settings line with
    | .ok j => .ok (.config j)
    | .error e => .error (.hookd e)
  else .error (.fatal ("No parser for hook argument kind " ++ pyRepr hook_arg.toName))

/-! ### `message()` of each recoverable error, i.e. `str(exc)`.
`UnsupportedHook.message` reads `self.name`, an attribute its `__init__`
never sets (it sets `backend` and `hook`), so evaluating it raises
`AttributeError` instead of returning a string. -/

/-- Join Python reprs with `", "`. -/
def joinReprs (l : List String) : String :=
  joinWith ", " (l.map pyRepr)

/-- A Python attribute value as far as the f-strings here need it. -/
inductive PyVal where
  | obj (dictNames : List String)
  | strv (s : String)

/-- Instance-attribute lookup on an `UnsupportedHook` object: `__init__`
stores exactly `backend` and `hook` (no method or base class supplies a
`name` attribute). -/
def unsupportedHookSelfAttr (backendDict : List String) (hook : String) :
    String → Option PyVal :=
  fun a =>
    if a = "backend" then some (.obj backendDict)
    else if a = "hook" then some (.strv hook)
    else none

/-- `repr` of a `PyVal` (only ever reached for strings here). -/
def PyVal.reprText : PyVal → String
  | .obj _ => "<object>"
  | .strv s => pyRepr s

/-- `str(exc)` = `HookdError.__str__` = `self.message()`; the result is an
exception when the `message` body itself raises. -/
def HookdErr.message : HookdErr → Except PyExc String
  | .missingBackendModule name =>
    .ok ("Failed to import the backend " ++ pyRepr name)
  | .missingBackendAttribute module attr =>
    .ok ("Failed to find attribute " ++ pyRepr attr ++ " in the backend module "
      ++ pyRepr module)
  | .malformedBackendName name =>
    .ok ("Backend " ++ pyRepr name ++ " is malformed")
  | .invalidHookName name =>
    .ok ("The name " ++ pyRepr name ++ " is not valid hook. Expected one of: "
      ++ joinReprs Hook.memberNames)
  | .invalidAction name =>
    .ok ("Received invalid action " ++ pyRepr name ++ ". Expected one of: "
      ++ joinReprs Action.memberNames)
  | .unsupportedHook backendDict hook =>
    let hook_names := Hook.memberNames
    let names := joinReprs (backendDict.filter (fun n => hook_names.contains n))
    match unsupportedHookSelfAttr backendDict hook "name" with
    | none =>
      .error ⟨"AttributeError",
        pyRepr "UnsupportedHook" ++ " object has no attribute " ++ pyRepr "name"⟩
    | some v =>
      .ok ("The hook " ++ v.reprText ++ " is not supported by the backend. "
        ++ "The backend supports: " ++ names)
  | .malformedHookArgument raw argument =>
    .ok ("Malformed content for argument " ++ pyRepr argument.toName ++ ": "
      ++ pyRepr raw)
  | .hookRuntimeError excText => .ok excText

/-- `UnreadableInput.__init__(self, reason)`: calling `UnreadableInput()`
with no argument raises `TypeError` before any instance exists. -/
def UnreadableInput.init (args : List String) : Except PyExc PyExc :=
  match args with
  | [reason] => .ok ⟨"UnreadableInput", "Standard input is not readable " ++ reason⟩
  | _ =>
    .error ⟨"TypeError",
      "UnreadableInput.__init__() missing 1 required positional argument: "
        ++ pyRepr "reason"⟩


/-! ### Response encoding (the `send_*` helpers) and str() of values that
feed DEBUG lines.  CPython renders floats from numeric literals in its own
float syntax; `pyJsonStr` keeps the lexeme instead (DEBUG content only,
asserted by no claim). -/

/-! `str()` of a value returned by `json.loads`. -/
mutual
/-- `str()` of a JSON document. -/
def pyJsonStr : Json → String
  | .null => "None"
  | .bool true => "True"
  | .bool false => "False"
  | .num lex => lex
  | .str s => pyRepr s
  | .arr xs => "[" ++ pyJsonStrList xs ++ "]"
  | .obj kvs => lbrace.toString ++ pyJsonStrMembers kvs ++ rbrace.toString
/-- Comma-joined `str()` of array elements. -/
def pyJsonStrList : JsonList → String
  | .nil => ""
  | .cons j .nil => pyJsonStr j
  | .cons j tl => pyJsonStr j ++ ", " ++ pyJsonStrList tl
/-- Comma-joined `str()` of object members. -/
def pyJsonStrMembers : JsonMembers → String
  | .nil => ""
  | .cons k v .nil => pyRepr k ++ ": " ++ pyJsonStr v
  | .cons k v tl => pyRepr k ++ ": " ++ pyJsonStr v ++ ", " ++ pyJsonStrMembers tl
end

/-- `f"{value}"` for a decoded argument value. -/
def argValueStr : ArgValue → String
  | .path p => p.text
  | .optPath none => "None"
  | .optPath (some p) => p.text
  | .config none => "None"
  | .config (some j) => pyJsonStr j

/-- `repr` of a `Hook` StrEnum member. -/
def hookEnumRepr (h : Hook) : String :=
  "<Hook." ++ h.toName ++ ": " ++ pyRepr h.toName ++ ">"

/-- `send_expect`: `print("EXPECT", name.replace("_", "-"))`. -/
def send_expect (name : String) : String :=
  "EXPECT " ++ String.mk (name.toList.map (fun c => if c = '_' then '-' else c))

/-- `send_ready`. -/
def send_ready : String := "READY"

/-- `send_shutdown`. -/
def send_shutdown : String := "SHUTDOWN"

/-- `send_ok`. -/
def send_ok_line (result : String) : String := "OK " ++ result

/-- `send_debug`: `print("DEBUG", *args)`. -/
def send_debug_line (args : List String) : String :=
  joinWith " " ("DEBUG" :: args)

/-- `send_error`: `print("ERROR", type(exc).__name__, str(exc))`; computing
`str(exc)` runs `message()`, which may itself raise. -/
def send_error_line (exc : HookdErr) : Except PyExc String :=
  match exc.message with
  | .ok m => .ok ("ERROR " ++ exc.typeName ++ " " ++ m)
  | .error e => .error e

/-- `send_fatal`: the FATAL line, followed by the traceback lines when the
debug flag is on. -/
def send_fatal_lines (debugOn : Bool) (traceLines : List String) (exc : PyExc) :
    List String :=
  ("FATAL " ++ exc.kind ++ " " ++ exc.text) :: (if debugOn then traceLines else [])

/-! ### One hook cycle (`run_once`) and the session loop (`main`). -/

/-- The state one hook cycle reads and writes: the backend memo table, the
pending input lines, and the output lines emitted so far. -/
structure ProtoState where
  cache : BackendCache
  input : List String
  output : List String

/-- The argument loop of `run_once`: for each argument kind of the schema,
emit `EXPECT <name>`, read one line, decode it; stop at the first failure
(outputs already emitted remain). -/
def parseArgs : List HookArgument → List String → List String →
    Except Failure (List ArgValue) × List String × List String
  | [], input, output => (.ok [], input, output)
  | a :: rest, input, output =>
    let output := output ++ [send_expect a.toName]
    let (line, input) := readLine input
    match parse_hook_argument a line with
    | .error f => (.error f, input, output)
    | .ok v =>
      match parseArgs rest input output with
      | (.ok vs, input2, output2) => (.ok (v :: vs), input2, output2)
      | (.error f, input2, output2) => (.error f, input2, output2)

/-- `run_once`: one full hook cycle.  Returns the failure that escaped it
(if any) plus the state, with all output emitted before the failure kept. -/
def run_once (env : PyEnv) (st : ProtoState) : Option Failure × ProtoState :=
  let st1 := { st with output := st.output ++ [send_expect "build-backend"] }
  let rd1 := readLine st1.input
  let st2 := { st1 with input := rd1.2 }
  match parse_build_backend env st2.cache rd1.1 with
  | (.error f, cache) => (some f, { st2 with cache })
  | (.ok (build_backend, build_backend_name), cache) =>
    let st3 := { st2 with
      cache,
      output := st2.output ++ [send_expect "hook-name"] }
    let rd2 := readLine st3.input
    let st4 := { st3 with input := rd2.2 }
    match parse_hook_name rd2.1 with
    | .error e => (some (.hookd e), st4)
    | .ok hook_name =>
      match lookupHookArguments hook_name with
      | none =>
        (some (.fatal ("No arguments defined for hook " ++ hookEnumRepr hook_name)), st4)
      | some schema =>
        match parseArgs schema st4.input st4.output with
        | (.error f, input, output) => (some f, { st4 with input, output })
        | (.ok args, input, output) =>
          let dbg := send_debug_line
            ([build_backend_name, hook_name.toName]
              ++ List.zipWith (fun (n : HookArgument) v => n.toName ++ "=" ++ argValueStr v)
                schema args)
          let st5 := { st4 with input, output := output ++ [dbg] }
          match env.getAttr build_backend hook_name.toName with
          | none =>
            (some (.hookd (.unsupportedHook (env.objDict build_backend) hook_name.toName)),
             st5)
          | some hook =>
            let st6 := { st5 with
              output := st5.output
                ++ [send_debug_line ["parsed hook inputs in " ++ env.parseElapsed]] }
            match env.callHook hook args with
            | .ok resultText =>
              (none, { st6 with output := st6.output ++ [send_ok_line resultText] })
            | .signal kind => (some (.signal kind), st6)
            | .raised e => (some (.hookd (.hookRuntimeError e.text)), st6)

/-- How the worker process ends. -/
inductive ExitStatus where
  | success
  | failure
deriving DecidableEq, Repr

/-- What a finished session leaves behind: everything written to stdout and
the process exit status. -/
structure SessionResult where
  output : List String
  status : ExitStatus
deriving DecidableEq, Repr

/-- The `while True` loop of `main`, fuelled (`none` = fuel ran out before
the session ended).  `readable` is `stdin.readable()`; when false, `raise
UnreadableInput()` raises `TypeError` while constructing the exception
(the required `reason` argument is missing), and that exception reaches
`except BaseException`, is reported as FATAL and re-raised: the process
dies with failure status.  An error raised while `send_error` formats an
ERROR line (as `UnsupportedHook.message` does) escapes the `except
HookdError` handler uncaught: no FATAL line, failure status. -/
def mainLoop (env : PyEnv) (debugOn readable : Bool) :
    Nat → ProtoState → Option SessionResult
  | 0, _ => none
  | fuel + 1, st =>
    if !readable then
      let exc := match UnreadableInput.init [] with | .ok e => e | .error t => t
      some ⟨st.output ++ send_fatal_lines debugOn env.traceLines exc, .failure⟩
    else
      let st1 := { st with output := st.output ++ [send_ready, send_expect "action"] }
      let rd := readLine st1.input
      let st2 := { st1 with input := rd.2 }
      match parse_action rd.1 with
      | .error e =>
        (match send_error_line e with
         | .ok l =>
           let st3 := { st2 with output := st2.output ++ [l] }
           if debugOn then some ⟨st3.output, .success⟩
           else mainLoop env debugOn readable fuel st3
         | .error _ => some ⟨st2.output, .failure⟩)
      | .ok .shutdown =>
        some ⟨st2.output ++ [send_shutdown], .success⟩
      | .ok .run =>
        match run_once env st2 with
        | (none, st3) =>
          let st4 := { st3 with
            output := st3.output ++ [send_debug_line ["ran hook in " ++ env.runElapsed]] }
          if debugOn then some ⟨st4.output, .success⟩
          else mainLoop env debugOn readable fuel st4
        | (some (.hookd e), st3) =>
          (match send_error_line e with
           | .ok l =>
             let st4 := { st3 with output := st3.output ++ [l] }
             if debugOn then some ⟨st4.output, .success⟩
             else mainLoop env debugOn readable fuel st4
           | .error _ => some ⟨st3.output, .failure⟩)
        | (some (.fatal msg), st3) =>
          some ⟨st3.output ++ send_fatal_lines debugOn env.traceLines ⟨"FatalError", msg⟩,
            .failure⟩
        | (some (.pyExc e), st3) =>
          some ⟨st3.output ++ send_fatal_lines debugOn env.traceLines e, .failure⟩
        | (some (.signal kind), st3) =>
          some ⟨st3.output ++ send_fatal_lines debugOn env.traceLines ⟨kind, ""⟩,
            .failure⟩

/-- `main` on a fresh session: empty cache, the given stdin lines, no
output yet. -/
def mainRun (env : PyEnv) (debugOn readable : Bool) (fuel : Nat)
    (input : List String) : Option SessionResult :=
  mainLoop env debugOn readable fuel ⟨[], input, []⟩

/-! ### The scoped working-directory primitive (`tmpchdir`). -/

/-- The filesystem as `os.chdir` and `Path.resolve` observe it: which
directory paths one can change into, and how a path resolves against the
current working directory. -/
structure Fs where
  valid : String → Bool
  resolve : String → String → String

/-- Process state carried by the working-directory primitive. -/
structure Proc where
  cwd : String
deriving DecidableEq, Repr

/-- `os.chdir`: fails (raises) on a directory one cannot enter. -/
def os_chdir (fs : Fs) (p : String) (_st : Proc) : Except PyExc Proc :=
  if fs.valid p then .ok ⟨p⟩ else .error ⟨"FileNotFoundError", p⟩

/-- `os.getcwd`. -/
def os_getcwd (st : Proc) : String := st.cwd

/-- `tmpchdir(path)` around a `with`-body: resolve the path, remember the
current directory, `try: chdir(path); yield path; finally: chdir(cwd)`.
The body receives the resolved path and the state after the change, may
itself move the working directory, and may raise (its state survives the
raise, as Python state does). -/
def tmpchdir (fs : Fs) (path : String)
    (body : String → Proc → Except PyExc Unit × Proc) (st : Proc) :
    Except PyExc Unit × Proc :=
  let rpath := fs.resolve (os_getcwd st) path
  let cwd := os_getcwd st
  match os_chdir fs rpath st with
  | .error e =>
    (match os_chdir fs cwd st with
     | .ok st2 => (.error e, st2)
     | .error e2 => (.error e2, st))
  | .ok st1 =>
    let bodyRes := body rpath st1
    match os_chdir fs cwd bodyRes.2 with
    | .ok st3 => (bodyRes.1, st3)
    | .error e2 => (.error e2, bodyRes.2)


/-! ### A concrete Python environment used by counterexamples and
witnesses.  Modules: `a` (handle 1), `a.b` (handle 2, also reachable as
attribute `b` of `a`), `setuptools.build_meta` (handle 3) whose attribute
`__legacy__` is handle 4.  Handle 5 is a backend object exposing only
`build_sdist`; handle 4 exposes every hook (handles 10..14). -/

/-- Sample environment for concrete evaluations. -/
def sampleEnv : PyEnv where
  importMod := fun m =>
    if m = "a" then .ok 1
    else if m = "a.b" then .ok 2
    else if m = "setuptools.build_meta" then .ok 3
    else .importError
  getAttr := fun h a =>
    if h = 1 && a = "b" then some 2
    else if h = 3 && a = "__legacy__" then some 4
    else if h = 5 && a = "build_sdist" then some 15
    else if h = 4 then some 10
    else none
  objDict := fun h =>
    if h = 5 then ["build_sdist", "helper"]
    else if h = 4 then Hook.memberNames
    else []
  callHook := fun _ _ => .ok "ok-result"
  parseElapsed := "0.10ms"
  runElapsed := "0.20ms"
  traceLines := ["Traceback (most recent call last):"]

/-- `Modelled from the spec:` the BackendSpec invariant of §3 — non-empty
module part; if a colon is present, the attribute part must be non-empty
(more than one colon does not fit the `module:attribute` grammar at all). -/
def specBackendSpecValid (raw : String) : Bool :=
  match splitChar ':' raw with
  | [m] => m != ""
  | [m, a] => m != "" && a != ""
  | _ => false

/-- A filesystem where every directory is enterable and resolution is the
identity (fixture for concrete working-directory runs). -/
def fsAll : Fs where
  valid := fun _ => true
  resolve := fun _ p => p

/-- A with-body that moves the working directory elsewhere and then
raises (fixture for concrete working-directory runs). -/
def movingFailingBody : String → Proc → Except PyExc Unit × Proc :=
  fun _ _ => (.error ⟨"RuntimeError", "boom"⟩, ⟨"/elsewhere"⟩)

/-! ## Theorems -/

/-- Helper: `splitChar` never returns the empty list. -/
theorem splitCharAux_ne_nil (sep : Char) (cs : List Char) (acc : List Char) :
    splitCharAux sep cs acc ≠ [] := by
  induction cs generalizing acc with
  | nil => simp [splitCharAux]
  | cons c cs ih =>
    simp only [splitCharAux]
    split
    · simp
    · exact ih _

/-- C7: for all five valid HookKind values, the schema lookup returns a
non-empty, fixed-order argument list matching the table: build_sdist →
(sdist_directory, config_settings); build_wheel → (wheel_directory,
config_settings, metadata_directory); prepare_metadata_for_build_wheel →
(metadata_directory, config_settings); get_requires_for_build_sdist →
(config_settings,); get_requires_for_build_wheel → (config_settings,). -/
theorem C7_hook_schema_table :
    lookupHookArguments .build_sdist = some [.sdist_directory, .config_settings] ∧
    lookupHookArguments .build_wheel =
      some [.wheel_directory, .config_settings, .metadata_directory] ∧
    lookupHookArguments .prepare_metadata_for_build_wheel =
      some [.metadata_directory, .config_settings] ∧
    lookupHookArguments .get_requires_for_build_sdist = some [.config_settings] ∧
    lookupHookArguments .get_requires_for_build_wheel = some [.config_settings] ∧
    ∀ h : Hook, (lookupHookArguments h).getD [] ≠ [] := by
  refine ⟨rfl, rfl, rfl, rfl, rfl, ?_⟩
  intro h
  cases h <;> decide

/-- C10: every valid HookKind has an entry in the argument registry, and
every ArgumentKind of its schema takes a real branch of the
parser dispatch, so the two internal FatalError branches ("No arguments
defined for hook ..." and "No parser for hook argument kind ...") are
unreachable for a request whose hook name decoded successfully. -/
theorem C10_internal_fatals_unreachable :
    (∀ h : Hook, (lookupHookArguments h).isSome = true) ∧
    (∀ (h : Hook) (arg : HookArgument) (line : String),
      arg ∈ (lookupHookArguments h).getD [] →
      ∀ msg, parse_hook_argument arg line ≠ .error (.fatal msg)) := by
  constructor
  · intro h; cases h <;> decide
  · intro h arg line _ msg hbad
    cases arg with
    | wheel_directory => exact Except.noConfusion hbad
    | metadata_directory => exact Except.noConfusion hbad
    | sdist_directory => exact Except.noConfusion hbad
    | config_settings =>
      simp only [parse_hook_argument, reduceIte] at hbad
      cases hpc : parse_config_settings line <;> rw [hpc] at hbad <;> simp at hbad

/-- Witness for C10 at hook build_wheel, argument wheel_directory. -/
theorem C10_internal_fatals_unreachable_witness :
    parse_hook_argument .wheel_directory "/w" ≠ .error (.fatal "oops") :=
  C10_internal_fatals_unreachable.2 .build_wheel .wheel_directory "/w" (by decide) "oops"

/-- C8: a session whose first input line is the action shutdown outputs
exactly READY, EXPECT action, SHUTDOWN (in that order), ends the process
with success status, and never emits an EXPECT build-backend line. -/
theorem C8_shutdown_session (env : PyEnv) (debugOn : Bool) (fuel : Nat)
    (rest : List String) (hfuel : 1 ≤ fuel) :
    mainRun env debugOn true fuel ("shutdown" :: rest) =
      some ⟨["READY", "EXPECT action", "SHUTDOWN"], .success⟩ ∧
    "EXPECT build-backend" ∉ ["READY", "EXPECT action", "SHUTDOWN"] := by
  obtain ⟨n, rfl⟩ : ∃ n, fuel = n + 1 := ⟨fuel - 1, by omega⟩
  exact ⟨rfl, by decide⟩

/-- Witness for C8 at a concrete environment and fuel. -/
theorem C8_shutdown_session_witness :
    mainRun sampleEnv false true 3 ["shutdown"] =
      some ⟨["READY", "EXPECT action", "SHUTDOWN"], .success⟩ :=
  (C8_shutdown_session sampleEnv false 3 [] (by omega)).1

/-- C4: when the input stream is not readable before the first read, the
session ends fatally — but the FATAL line carries kind TypeError, not
UnreadableInput: `raise UnreadableInput()` omits the `reason` argument
`UnreadableInput.__init__` requires, so constructing the exception raises
TypeError and that is what reaches the FATAL encoder. -/
theorem C4_unreadable_input_is_typeerror (env : PyEnv) (fuel : Nat)
    (input : List String) (hfuel : 1 ≤ fuel) :
    UnreadableInput.init [] =
      .error ⟨"TypeError",
        "UnreadableInput.__init__() missing 1 required positional argument: "
          ++ pyRepr "reason"⟩ ∧
    mainRun env false false fuel input =
      some ⟨["FATAL TypeError UnreadableInput.__init__() missing 1 required "
          ++ "positional argument: " ++ pyRepr "reason"], .failure⟩ := by
  obtain ⟨n, rfl⟩ : ∃ n, fuel = n + 1 := ⟨fuel - 1, by omega⟩
  exact ⟨rfl, rfl⟩

/-- Witness for C4 at a concrete environment and fuel. -/
theorem C4_unreadable_input_is_typeerror_witness :
    mainRun sampleEnv false false 1 [] =
      some ⟨["FATAL TypeError UnreadableInput.__init__() missing 1 required "
          ++ "positional argument: " ++ pyRepr "reason"], .failure⟩ :=
  (C4_unreadable_input_is_typeerror sampleEnv 1 [] (by omega)).2

/-- C5 counterexample: the empty line is not rejected by the required-path
parser; it is decoded as a path (pathlib normalises the empty string to
the current directory `"."`), both directly and through the argument
dispatch for wheel_directory. -/
theorem C5_counterexample :
    parse_path "" = ⟨"."⟩ ∧
    parse_hook_argument .wheel_directory "" = .ok (.path ⟨"."⟩) :=
  ⟨rfl, rfl⟩

/-- C5 as amended: the path kinds wheel_directory and sdist_directory
decode every line — the empty line included — as a filesystem path with no
validation; metadata_directory decodes the empty line to absent and any
other line to a path. -/
theorem C5_amended (line : String) :
    (∀ arg, arg = HookArgument.wheel_directory ∨ arg = HookArgument.sdist_directory →
      parse_hook_argument arg line = .ok (.path (parse_path line))) ∧
    (rstripNl line = "" → parse_optional_path line = none) ∧
    (rstripNl line ≠ "" → parse_optional_path line = some ⟨rstripNl line⟩) := by
  refine ⟨?_, ?_, ?_⟩
  · rintro arg (rfl | rfl) <;> rfl
  · intro h; simp [parse_optional_path, h]
  · intro h; simp [parse_optional_path, h]

/-- Witness for C5 as amended, at concrete lines. -/
theorem C5_amended_witness :
    parse_hook_argument .sdist_directory "/s" = .ok (.path (parse_path "/s")) ∧
    parse_optional_path "" = none ∧
    parse_optional_path "/m" = some ⟨"/m"⟩ :=
  ⟨(C5_amended "/s").1 .sdist_directory (Or.inr rfl),
   (C5_amended "").2.1 (by decide),
   (C5_amended "/m").2.2 (by decide)⟩

/-- C1: `UnsupportedHook.message` interpolates `self.name`, an attribute
`__init__` never sets (it sets `backend` and `hook`), so computing the
message — and hence the ERROR line for an unsupported hook — raises
AttributeError instead of producing the message the claim describes. -/
theorem C1_unsupported_hook_message_raises (backendDict : List String) (hook : String) :
    HookdErr.message (.unsupportedHook backendDict hook) =
      .error ⟨"AttributeError",
        pyRepr "UnsupportedHook" ++ " object has no attribute " ++ pyRepr "name"⟩ ∧
    send_error_line (.unsupportedHook backendDict hook) =
      .error ⟨"AttributeError",
        pyRepr "UnsupportedHook" ++ " object has no attribute " ++ pyRepr "name"⟩ :=
  ⟨rfl, rfl⟩


/-- C2 counterexample: the non-empty line `123` is not a nested
string-to-string mapping, yet decoding succeeds (json.loads accepts any
JSON document; the nested-mapping structure is never validated). -/
theorem C2_config_settings_counterexample :
    parse_config_settings "123" = .ok (some (.num "123")) ∧
    ¬ SpecNestedStringMapping (.num "123") := by
  refine ⟨rfl, ?_⟩
  rintro ⟨⟨kvs, hk⟩, _⟩
  exact Json.noConfusion hk

/-- C2 as amended: a non-empty config_settings line decodes successfully
if and only if it is a valid JSON document of any shape (the
nested-mapping structure is not checked); a non-empty line that is not
valid JSON raises MalformedHookArgument whose captured raw text equals
the line exactly and whose argument is config_settings. -/
theorem C2_config_settings_amended (line : String) (hne : rstripNl line ≠ "") :
    (∀ j, jsonLoads (rstripNl line) = some j →
      parse_config_settings line = .ok (some j)) ∧
    (jsonLoads (rstripNl line) = none →
      parse_config_settings line =
        .error (.malformedHookArgument (rstripNl line) .config_settings)) := by
  constructor
  · intro j hj
    simp [parse_config_settings, hne, hj]
  · intro hj
    simp [parse_config_settings, hne, hj]

/-- Witness for C2 as amended: `\x7b\x7d` decodes to the empty (present)
mapping, and `\x7bbad` raises MalformedHookArgument carrying exactly
`\x7bbad` and config_settings. -/
theorem C2_config_settings_amended_witness :
    parse_config_settings "\x7b\x7d" = .ok (some (.obj .nil)) ∧
    parse_config_settings "\x7bbad" =
      .error (.malformedHookArgument "\x7bbad" .config_settings) :=
  ⟨(C2_config_settings_amended "\x7b\x7d" (by decide)).1 (.obj .nil) (by rfl),
   (C2_config_settings_amended "\x7bbad" (by decide)).2 (by rfl)⟩

/-- C3 counterexample: `:x` violates the BackendSpec invariant (its module
part is empty) yet is not rejected as MalformedBackendName — validation
only checks the attribute part and the colon count, so `:x` reaches the
`importlib.import_module("")` call, whose ValueError is not an ImportError
and so is caught by no handler: the session crashes fatally with
`FATAL ValueError`, not with any recoverable error. -/
theorem C3_backend_name_counterexample :
    specBackendSpecValid ":x" = false ∧
    backendNameParts ":x" = .ok ("", some "x") ∧
    _parse_build_backend sampleEnv ":x" =
      .error (.pyExc ⟨"ValueError", "Empty module name"⟩) ∧
    mainRun sampleEnv false true 2 ["run", ":x"] =
      some ⟨["READY", "EXPECT action", "EXPECT build-backend",
             "FATAL ValueError Empty module name"], .failure⟩ :=
  ⟨rfl, rfl, rfl, rfl⟩

/-- C3 as amended: parsing raises MalformedBackendName exactly when the
line has more than one colon, or exactly one colon with an empty
attribute part; every line satisfying the invariant is not rejected as
malformed, but an empty module part alone is not rejected either. -/
theorem C3_backend_name_amended (raw : String) :
    (specBackendSpecValid raw = true → ∀ e, backendNameParts raw ≠ .error e) ∧
    ((∃ e, backendNameParts raw = .error e) ↔
      2 < (splitChar ':' raw).length ∨
      ((splitChar ':' raw).length = 2 ∧ (splitChar ':' raw).getLastD "" = "")) ∧
    (∀ e, backendNameParts raw = .error e → e = .malformedBackendName raw) := by
  rcases hsp : splitChar ':' raw with _ | ⟨m, _ | ⟨a, _ | ⟨b, l⟩⟩⟩
  · exact absurd hsp (by simpa [splitChar] using splitCharAux_ne_nil ':' raw.toList [])
  · refine ⟨fun _ e => ?_, ?_, fun e he => ?_⟩
    · simp [backendNameParts, hsp]
    · simp [backendNameParts, hsp]
    · simp [backendNameParts, hsp] at he
  · by_cases ha : a = ""
    · subst ha
      refine ⟨fun hv => ?_, ?_, fun e he => ?_⟩
      · simp [specBackendSpecValid, hsp] at hv
      · simp [backendNameParts, hsp]
      · simp [backendNameParts, hsp] at he
        exact he.symm
    · refine ⟨fun _ e => ?_, ?_, fun e he => ?_⟩
      · simp [backendNameParts, hsp, ha]
      · simp [backendNameParts, hsp, ha]
      · simp [backendNameParts, hsp, ha] at he
  · refine ⟨fun hv => ?_, ?_, fun e he => ?_⟩
    · simp [specBackendSpecValid, hsp] at hv
    · simp [backendNameParts, hsp]
    · simp [backendNameParts, hsp] at he
      exact he.symm

/-- Witness for C3 as amended: `a:` (empty attribute) is malformed, `a`
(plain module) is not. -/
theorem C3_backend_name_amended_witness :
    (∃ e, backendNameParts "a:" = .error e) ∧
    backendNameParts "a" ≠ .error (.malformedBackendName "a") :=
  ⟨(C3_backend_name_amended "a:").2.1.mpr (by decide),
   (C3_backend_name_amended "a").1 (by decide) (.malformedBackendName "a")⟩

/-- C6 counterexample: two different spec strings can return equal handles
— `a.b` resolves to the module object, and `a:b` to the same object via
the attribute, so "a different string never returns a handle equal to a
previous string's cache entry" fails. -/
theorem C6_backend_cache_counterexample :
    ("a.b" ≠ "a:b") ∧
    cachedParseBuildBackend sampleEnv [] "a.b" = (.ok 2, [("a.b", 2)]) ∧
    cachedParseBuildBackend sampleEnv [("a.b", 2)] "a:b" =
      (.ok 2, [("a:b", 2), ("a.b", 2)]) :=
  ⟨by decide, rfl, rfl⟩

/-- C6 as amended: resolving the same BackendSpec string again returns the
identical cached handle with the cache unchanged, and an empty
backend-spec line always resolves the fixed legacy default
setuptools.build_meta:__legacy__ regardless of prior cache state; a
different string may, however, return a handle equal to a previous
string's cache entry. -/
theorem C6_backend_cache_amended (env : PyEnv) (c : BackendCache) (raw : String) :
    (∀ h c2, cachedParseBuildBackend env c raw = (.ok h, c2) →
      cachedParseBuildBackend env c2 raw = (.ok h, c2)) ∧
    (∀ line, rstripNl line = "" →
      parse_build_backend env c line =
        match cachedParseBuildBackend env c legacyBackend with
        | (.ok h, c2) => (.ok (h, legacyBackend), c2)
        | (.error e, c2) => (.error e, c2)) := by
  constructor
  · intro h c2 hres
    unfold cachedParseBuildBackend at hres ⊢
    cases hlk : c.lookup raw with
    | some h0 =>
      rw [hlk] at hres
      cases hres
      simp [hlk]
    | none =>
      rw [hlk] at hres
      cases hpr : _parse_build_backend env raw with
      | ok h0 =>
        rw [hpr] at hres
        cases hres
        simp [List.lookup]
      | error e =>
        rw [hpr] at hres
        simp at hres
  · intro line hl
    simp only [parse_build_backend, hl, if_pos]

/-- Witness for C6 as amended, at the sample environment. -/
theorem C6_backend_cache_amended_witness :
    cachedParseBuildBackend sampleEnv [("a.b", 2)] "a.b" = (.ok 2, [("a.b", 2)]) ∧
    parse_build_backend sampleEnv [] "" =
      (.ok (4, legacyBackend), [(legacyBackend, 4)]) :=
  ⟨(C6_backend_cache_amended sampleEnv [] "a.b").1 2 [("a.b", 2)] (by rfl),
   ((C6_backend_cache_amended sampleEnv [] "anything").2 "" (by rfl)).trans (by rfl)⟩

/-- C9: the scoped working-directory primitive restores the original
working directory on every exit path — normal return, an exception in the
body (even if the body itself moved the directory), or failure of the
directory change itself — provided the original directory can still be
entered (it was the process working directory when captured). -/
theorem C9_tmpchdir_restores_cwd (fs : Fs) (path : String)
    (body : String → Proc → Except PyExc Unit × Proc) (st : Proc)
    (hvalid : fs.valid st.cwd = true) :
    (tmpchdir fs path body st).2.cwd = st.cwd := by
  unfold tmpchdir
  cases hc1 : os_chdir fs (fs.resolve (os_getcwd st) path) st with
  | error e =>
    have hback : os_chdir fs (os_getcwd st) st = .ok ⟨st.cwd⟩ := by
      simp [os_chdir, os_getcwd, hvalid]
    simp [hback, hc1]
  | ok st1 =>
    have hback : ∀ p : Proc, os_chdir fs (os_getcwd st) p = .ok ⟨st.cwd⟩ := by
      intro p
      simp [os_chdir, os_getcwd, hvalid]
    simp [hback, hc1]

/-- Witness for C9: a body that moves the directory and raises still
leaves the original directory restored. -/
theorem C9_tmpchdir_restores_cwd_witness :
    (tmpchdir fsAll "/build" movingFailingBody ⟨"/home"⟩).2.cwd = "/home" :=
  C9_tmpchdir_restores_cwd fsAll "/build" movingFailingBody ⟨"/home"⟩ (by rfl)

end Hookd
